import Mathlib

/-!
Verification development for the PC-builder application
(build-state store, local compatibility validator, layout/topology engine,
category navigation, analysis orchestration, catalog fetch).

Definitions are shallow embeddings of the TypeScript source:
`types.ts`, `App.tsx`, `components/ComponentList.tsx`,
`components/VisualBuilder.tsx`, `services/geminiService.ts`.
-/

/-- The eight part categories, in the declaration order of the
`PartType` enum in `types.ts`. -/
inductive PartType where
  | CPU
  | MOTHERBOARD
  | RAM
  | GPU
  | STORAGE
  | PSU
  | CASE
  | COOLER
deriving DecidableEq, BEq, Repr

/-- Enumeration of all categories in enum-declaration order
(`Object.values(PartType)`). -/
def allParts : List PartType :=
  [PartType.CPU, PartType.MOTHERBOARD, PartType.RAM, PartType.GPU,
   PartType.STORAGE, PartType.PSU, PartType.CASE, PartType.COOLER]

/-- A purchasable component record (`ComponentData` in `types.ts`).
`specs` is the `Record<string, string>` mapping, modelled as a partial map;
`price` and `rating` are numeric fields (prices are non-negative). -/
structure ComponentData where
  id : String
  name : String
  price : Nat
  image : String
  type : PartType
  specs : String → Option String
  rating : Nat
  retailer : String
  url : String

/-- The build state: a mapping from category to at most one selected
component (`BuildState` in `types.ts`, all fields optional). -/
def BuildState : Type := PartType → Option ComponentData

/-- `INITIAL_BUILD = {}` in `App.tsx`. -/
def emptyBuild : BuildState := fun _ => none

/-- `setBuild(prev => ({ ...prev, [part.type]: part }))` in
`handleAddPart` (`App.tsx`): store the part under its own `type` key,
overwriting any occupant. -/
def setSlot (b : BuildState) (p : ComponentData) : BuildState :=
  fun t => if t = p.type then some p else b t

/-- `handleRemovePart` (`App.tsx`): `delete next[type]`. -/
def clearSlot (b : BuildState) (t0 : PartType) : BuildState :=
  fun t => if t = t0 then none else b t

/-- The reset button (`setBuild({})` in `App.tsx`). -/
def clearAll (_ : BuildState) : BuildState := emptyBuild

/-- `Object.values(build).filter((p): p is ComponentData => !!p)` in
`App.tsx`: the list of components in currently filled slots.  JS object
iteration order is insertion order of the keys; since the aggregate uses
of this list (sum, length) are order-independent, the fixed enum order is
used for the enumeration. -/
def activeParts (b : BuildState) : List ComponentData :=
  allParts.filterMap b

/-- `activeParts.reduce((sum, part) => sum + (part.price || 0), 0)` in
`App.tsx` (on numeric non-NaN prices, `price || 0` equals `price`). -/
def totalPrice (b : BuildState) : Nat :=
  (activeParts b).foldl (fun sum part => sum + part.price) 0

/-- `activeParts.length` in `App.tsx` (the "n/8 Selected" count). -/
def filledCount (b : BuildState) : Nat :=
  (activeParts b).length

/-- The fixed canonical category order used by the auto-advance logic in
`handleAddPart` (`App.tsx`). -/
def order : List PartType :=
  [PartType.CPU, PartType.MOTHERBOARD, PartType.RAM, PartType.GPU,
   PartType.STORAGE, PartType.COOLER, PartType.PSU, PartType.CASE]

/-- `useState<PartType>(PartType.CPU)` in `App.tsx`: the initial active
category. -/
def initialActiveCategory : PartType := PartType.CPU

/-- The auto-advance step of `handleAddPart` (`App.tsx`):
`currentIndex = order.indexOf(part.type); if (currentIndex < order.length - 1)
setActiveCategory(order[currentIndex + 1])`.  Every `PartType` occurs in
`order`, so `indexOf` never takes its not-found value. -/
def advanceAfterAdd (active : PartType) (added : PartType) : PartType :=
  let currentIndex := order.indexOf added
  if currentIndex < order.length - 1 then
    (order.get? (currentIndex + 1)).getD active
  else
    active

/-- State held by `App` that `handleAddPart` touches: the build and the
active category. -/
structure UiState where
  build : BuildState
  activeCategory : PartType

/-- `handleAddPart` (`App.tsx`): commit the part to its slot, then
auto-advance the active category. -/
def handleAddPart (s : UiState) (p : ComponentData) : UiState :=
  { build := setSlot s.build p,
    activeCategory := advanceAfterAdd s.activeCategory p.type }

/-- The socket-mismatch warning message
(template string in `ComponentList.tsx`). -/
def mismatchMsg (first second : String) : String :=
  "Socket Mismatch: " ++ first ++ " vs " ++ second

/-- JS truthiness of an optional string field: `undefined` and the empty
string are falsy. -/
def truthy : Option String → Bool
  | none => false
  | some s => s != ""

/-- `getCompatibilityWarning` (`components/ComponentList.tsx`): the local
compatibility validator.  First branch: candidate CPU against an installed
motherboard; second branch: candidate motherboard against an installed
CPU.  The guard `moboSocket && cpuSocket && moboSocket !== cpuSocket`
requires both socket fields truthy and distinct. -/
def getCompatibilityWarning (build : BuildState) (part : ComponentData) :
    Option String :=
  if part.type = PartType.CPU then
    match build PartType.MOTHERBOARD with
    | some mobo =>
      let moboSocket := mobo.specs "socket"
      let cpuSocket := part.specs "socket"
      if truthy moboSocket && truthy cpuSocket && moboSocket != cpuSocket then
        some (mismatchMsg (cpuSocket.getD "") (moboSocket.getD ""))
      else none
    | none => none
  else if part.type = PartType.MOTHERBOARD then
    match build PartType.CPU with
    | some cpu =>
      let cpuSocket := cpu.specs "socket"
      let moboSocket := part.specs "socket"
      if truthy moboSocket && truthy cpuSocket && moboSocket != cpuSocket then
        some (mismatchMsg (moboSocket.getD "") (cpuSocket.getD ""))
      else none
    | none => none
  else none

/-- The validator output viewed as the ordered warning list of the spec
(the implementation returns a single nullable string). -/
def compatibilityWarnings (build : BuildState) (part : ComponentData) :
    List String :=
  (getCompatibilityWarning build part).toList

/-- One slot geometry entry of `COMPONENT_COORDS`
(`components/VisualBuilder.tsx`): a fixed rectangle plus a CSS class tag. -/
structure Coords where
  x : ℚ
  y : ℚ
  width : ℚ
  height : ℚ
  cls : String

/-- The static slot geometry table `COMPONENT_COORDS`
(`components/VisualBuilder.tsx`). -/
def COMPONENT_COORDS : PartType → Coords
  | PartType.MOTHERBOARD => ⟨20, 20, 380, 440, "z-0 opacity-40"⟩
  | PartType.CPU => ⟨168, 110, 80, 80, "z-30"⟩
  | PartType.COOLER => ⟨168, 110, 80, 80, "z-40"⟩
  | PartType.RAM => ⟨300, 110, 32, 128, "z-30"⟩
  | PartType.GPU => ⟨64, 240, 256, 128, "z-30"⟩
  | PartType.PSU => ⟨30, 480, 160, 96, "z-30"⟩
  | PartType.STORAGE => ⟨380, 420, 96, 64, "z-30"⟩
  | PartType.CASE => ⟨0, 0, 500, 600, "z-0 hidden"⟩

/-- A point in the 500x600 canvas. -/
abbrev Pt : Type := ℚ × ℚ

/-- Geometric center of a slot, as computed in `renderConnections`:
`x + width / 2`, `y + height / 2`. -/
def centers (t : PartType) : Pt :=
  ((COMPONENT_COORDS t).x + (COMPONENT_COORDS t).width / 2,
   (COMPONENT_COORDS t).y + (COMPONENT_COORDS t).height / 2)

/-- `getOrthoPath` (`components/VisualBuilder.tsx`): vertical run to the
mid height, horizontal run, vertical run to the target.  The SVG path
string is modelled as its polyline vertex list. -/
def getOrthoPath (start stop : Pt) : List Pt :=
  let midY := (start.2 + stop.2) / 2
  [start, (start.1, midY), (stop.1, midY), stop]

/-- One derived connection edge as pushed by `renderConnections`: the
routed path (vertex list of the SVG path string), the stroke color, the
rule id and the glow color. -/
structure Edge where
  path : List Pt
  color : String
  id : String
  glow : String
deriving DecidableEq

/-- The cpu-ram edge record (straight line between the CPU and RAM
centers, data gradient). -/
def cpuRamEdge : Edge :=
  ⟨[centers PartType.CPU, centers PartType.RAM],
   "url(#grad-data)", "cpu-ram", "#a78bfa"⟩

/-- The cpu-gpu edge record (custom two-segment path between the CPU and
GPU centers, data gradient). -/
def cpuGpuEdge : Edge :=
  ⟨[centers PartType.CPU,
    ((centers PartType.CPU).1, (centers PartType.GPU).2),
    centers PartType.GPU],
   "url(#grad-data)", "cpu-gpu", "#a78bfa"⟩

/-- The psu-mobo edge record (orthogonal route between the PSU and
motherboard centers, power gradient). -/
def psuMoboEdge : Edge :=
  ⟨getOrthoPath (centers PartType.PSU) (centers PartType.MOTHERBOARD),
   "url(#grad-power)", "psu-mobo", "#22d3ee"⟩

/-- The psu-gpu edge record (orthogonal route between the PSU and GPU
centers, GPU power gradient). -/
def psuGpuEdge : Edge :=
  ⟨getOrthoPath (centers PartType.PSU) (centers PartType.GPU),
   "url(#grad-power-gpu)", "psu-gpu", "#facc15"⟩

/-- The mobo-sata edge record: start anchor is the motherboard center
offset by (+60, +120), end anchor is the storage center; two-segment
path, storage-link color. -/
def moboSataEdge : Edge :=
  ⟨[((centers PartType.MOTHERBOARD).1 + 60, (centers PartType.MOTHERBOARD).2 + 120),
    ((centers PartType.STORAGE).1, (centers PartType.MOTHERBOARD).2 + 120),
    centers PartType.STORAGE],
   "#34d399", "mobo-sata", "#34d399"⟩

/-- `renderConnections` (`components/VisualBuilder.tsx`): evaluate the
five edge rules in order, each firing exactly when both endpoint slots
are filled, and collect the pushed connection records. -/
def renderConnections (build : BuildState) : List Edge :=
  (if (build PartType.PSU).isSome && (build PartType.MOTHERBOARD).isSome then
    [psuMoboEdge] else []) ++
  (if (build PartType.PSU).isSome && (build PartType.GPU).isSome then
    [psuGpuEdge] else []) ++
  (if (build PartType.CPU).isSome && (build PartType.RAM).isSome then
    [cpuRamEdge] else []) ++
  (if (build PartType.CPU).isSome && (build PartType.GPU).isSome then
    [cpuGpuEdge] else []) ++
  (if (build PartType.MOTHERBOARD).isSome && (build PartType.STORAGE).isSome then
    [moboSataEdge] else [])

/-- The advisory result shape (`CompatibilityResult` in `types.ts`). -/
structure CompatibilityResult where
  isCompatible : Bool
  issues : List String
  notes : List String
  estimatedWattage : Nat
  bottleneck : String
  aiScore : Nat
deriving DecidableEq

/-- The hard-coded fallback result in the catch branch of
`checkCompatibility` (`services/geminiService.ts`). -/
def fallbackResult : CompatibilityResult :=
  { isCompatible := true,
    issues := ["Could not verify compatibility (AI Error)"],
    notes := [],
    estimatedWattage := 0,
    bottleneck := "Unknown",
    aiScore := 0 }

/-- Outcome of one call to the external advisory collaborator:
an exception anywhere in the try block (network failure, malformed JSON),
a response with no text (which the source turns into a thrown error), or
a well-formed parsed result. -/
inductive AdvisoryOutcome where
  | throws
  | noText
  | result (r : CompatibilityResult)

/-- `checkCompatibility` (`services/geminiService.ts`): return the parsed
result when the response is well-formed; every other path reaches the
catch branch and substitutes `fallbackResult`. -/
def checkCompatibility : AdvisoryOutcome → CompatibilityResult
  | AdvisoryOutcome.result r => r
  | AdvisoryOutcome.throws => fallbackResult
  | AdvisoryOutcome.noText => fallbackResult

/-- The analysis-related slice of the `App` state: the displayed result
and the pending flag. -/
structure AnalysisState where
  analysis : Option CompatibilityResult
  analyzing : Bool
deriving DecidableEq

/-- Initial analysis state: `useState(null)`, `useState(false)`. -/
def initialAnalysisState : AnalysisState :=
  { analysis := none, analyzing := false }

/-- Observable events of `runAnalysis` (`App.tsx`): a request starts
(`setAnalyzing(true)` before the await), or an awaited response arrives
and completes its request (`setAnalysis(result); setAnalyzing(false)`).
Build mutations between events do not touch this state slice. -/
inductive AnalysisEv where
  | start
  | complete (r : CompatibilityResult)

/-- One event step over the analysis state.  A completing response
overwrites the displayed result unconditionally: the source keeps no tag
of which request a response belongs to. -/
def stepAnalysis (s : AnalysisState) : AnalysisEv → AnalysisState
  | AnalysisEv.start => { s with analyzing := true }
  | AnalysisEv.complete r => { analysis := some r, analyzing := false }

/-- Run a sequence of analysis events. -/
def runAnalysisEvents (s : AnalysisState) (evs : List AnalysisEv) :
    AnalysisState :=
  evs.foldl stepAnalysis s

/-- The result carried by the most recent completion event in a list,
if any. -/
def lastCompleted : List AnalysisEv → Option CompatibilityResult
  | [] => none
  | e :: rest =>
    match lastCompleted rest with
    | some r => some r
    | none =>
      match e with
      | AnalysisEv.start => none
      | AnalysisEv.complete r => some r

/-- Outcome of one call to the external catalog provider: an exception
anywhere in the try block, a response with no text, or a parsed raw item
list. -/
inductive ProviderOutcome where
  | throws
  | noText
  | ok (raw : List ComponentData)

/-- `fetchComponents` (`services/geminiService.ts`): on a parsed response,
map each raw item, overriding `image` with a derived placeholder URL and
force-normalizing `type` to the requested category; on no text return the
empty list; any exception is caught and also yields the empty list — the
function never rejects. -/
def fetchComponents (category : PartType) : ProviderOutcome →
    List ComponentData
  | ProviderOutcome.ok raw =>
      raw.map (fun item =>
        { item with
          image := "https://picsum.photos/seed/" ++ item.id ++ "/200/200",
          type := category })
  | ProviderOutcome.noText => []
  | ProviderOutcome.throws => []

/-- `fetchComponents` viewed as a possibly-rejecting promise: since every
failure path inside it is caught, it always resolves. -/
def fetchComponentsE (category : PartType) (o : ProviderOutcome) :
    Except String (List ComponentData) :=
  Except.ok (fetchComponents category o)

/-- The catalog panel state touched by `loadItems`
(`components/ComponentList.tsx`). -/
structure ListState where
  items : List ComponentData
  loading : Bool
  error : Option String
deriving Inhabited

/-- The try/catch body of `loadItems` (`components/ComponentList.tsx`)
applied to the settled fetch promise: on resolution store the items and
keep `error` cleared; on rejection set the error message and leave the
items as they were. -/
def loadItemsWith (s : ListState) :
    Except String (List ComponentData) → ListState
  | Except.ok data => { items := data, loading := false, error := none }
  | Except.error _ =>
      { s with
        loading := false,
        error := some "Failed to load components. Please check API Key." }

/-- `loadItems` composed with the actual fetch: the provider outcome is
routed through `fetchComponentsE`, which never rejects. -/
def loadItems (s : ListState) (category : PartType) (o : ProviderOutcome) :
    ListState :=
  loadItemsWith s (fetchComponentsE category o)

/-- A build-state mutation: `handleAddPart` stores a part under its own
category key; `handleRemovePart` clears a category. -/
inductive BuildOp where
  | set (p : ComponentData)
  | clear (t : PartType)

/-- Apply one mutation. -/
def applyOp (b : BuildState) : BuildOp → BuildState
  | BuildOp.set p => setSlot b p
  | BuildOp.clear t => clearSlot b t

/-- Apply a sequence of mutations. -/
def applyOps (b : BuildState) (ops : List BuildOp) : BuildState :=
  ops.foldl applyOp b

/-- Modelled from the words of the spec: the successor of a category in
the canonical order processor, motherboard, memory, graphics card,
storage, cooler, power supply, case (the last element has no successor
and is mapped to itself; the auto-advance theorem only uses this map on
non-last categories). -/
def specNextCategory : PartType → PartType
  | PartType.CPU => PartType.MOTHERBOARD
  | PartType.MOTHERBOARD => PartType.RAM
  | PartType.RAM => PartType.GPU
  | PartType.GPU => PartType.STORAGE
  | PartType.STORAGE => PartType.COOLER
  | PartType.COOLER => PartType.PSU
  | PartType.PSU => PartType.CASE
  | PartType.CASE => PartType.CASE

/-- Price of the occupant of a slot, 0 when the slot is empty. -/
def priceOf : Option ComponentData → Nat
  | some p => p.price
  | none => 0

/-- Modelled from the words of the spec: the exact sum of the prices of
the components in the occupied slots. -/
def specTotalPrice (b : BuildState) : Nat :=
  (allParts.map (fun t => priceOf (b t))).sum

/-- Modelled from the words of the spec: the number of distinct
categories currently occupied (`allParts` lists each category exactly
once). -/
def specOccupiedCount (b : BuildState) : Nat :=
  allParts.countP (fun t => (b t).isSome)

/-- The category-key invariant of the spec: every stored record has its
own category field equal to the key it is stored under. -/
def WellKeyed (b : BuildState) : Prop :=
  ∀ t p, b t = some p → p.type = t

/-- Sample processor with socket AM5. -/
def sampleCPU : ComponentData :=
  { id := "cpu-1", name := "Ryzen 7", price := 30000, image := "img",
    type := PartType.CPU,
    specs := fun k => if k = "socket" then some "AM5" else none,
    rating := 4, retailer := "Amazon.in", url := "u1" }

/-- Sample memory module (no socket specification). -/
def sampleRAM : ComponentData :=
  { id := "ram-1", name := "Vengeance 32GB", price := 8000, image := "img",
    type := PartType.RAM, specs := fun _ => none,
    rating := 5, retailer := "MDComputers", url := "u2" }

/-- Sample power supply (no socket specification). -/
def samplePSU : ComponentData :=
  { id := "psu-1", name := "RM750e", price := 9000, image := "img",
    type := PartType.PSU, specs := fun _ => none,
    rating := 4, retailer := "Vedant", url := "u3" }

/-- Sample motherboard with socket LGA1700. -/
def sampleMobo : ComponentData :=
  { id := "mobo-1", name := "Z790 Board", price := 20000, image := "img",
    type := PartType.MOTHERBOARD,
    specs := fun k => if k = "socket" then some "LGA1700" else none,
    rating := 4, retailer := "PrimeABGB", url := "u4" }

/-- Sample storage drive. -/
def sampleStorage : ComponentData :=
  { id := "ssd-1", name := "980 Pro 1TB", price := 10000, image := "img",
    type := PartType.STORAGE, specs := fun _ => none,
    rating := 5, retailer := "Amazon.in", url := "u5" }

/-- Build containing exactly a processor and a memory module. -/
def buildCpuRam : BuildState :=
  setSlot (setSlot emptyBuild sampleCPU) sampleRAM

/-- Build containing exactly a processor, a memory module and a power
supply. -/
def buildCpuRamPsu : BuildState :=
  setSlot buildCpuRam samplePSU

/-- Build containing exactly a motherboard and a storage drive. -/
def buildMoboStorage : BuildState :=
  setSlot (setSlot emptyBuild sampleMobo) sampleStorage

/-- Build containing exactly a motherboard (socket LGA1700). -/
def buildWithMobo : BuildState :=
  setSlot emptyBuild sampleMobo

/-- A well-formed advisory result for the first (superseded) request. -/
def resultA : CompatibilityResult :=
  { isCompatible := true, issues := [], notes := ["older snapshot"],
    estimatedWattage := 300, bottleneck := "None", aiScore := 90 }

/-- A well-formed advisory result for the second (latest) request. -/
def resultB : CompatibilityResult :=
  { isCompatible := false, issues := ["PSU too weak"], notes := [],
    estimatedWattage := 650, bottleneck := "GPU", aiScore := 40 }

/-- The staleness interleaving: request A starts, the build is mutated
and request B starts, the response for B arrives, then the (stale)
response for A arrives last. -/
def staleTrace : List AnalysisEv :=
  [AnalysisEv.start, AnalysisEv.start,
   AnalysisEv.complete resultB, AnalysisEv.complete resultA]

/-- The catalog panel step lifted to carry the build state alongside,
showing that `loadItems` never touches the build. -/
def loadItemsApp (s : ListState × BuildState) (category : PartType)
    (o : ProviderOutcome) : ListState × BuildState :=
  (loadItems s.1 category o, s.2)

/-- C3: for every build state, if the advisory collaborator throws or
returns no well-formed result, the analysis operation does not propagate
an error (the function is total) but returns exactly the fallback
Compatibility Result with isCompatible = true, the single AI-error issue
string, no notes, wattage 0, bottleneck "Unknown" and score 0. -/
theorem claim3_advisory_fallback (o : AdvisoryOutcome)
    (h : o = AdvisoryOutcome.throws ∨ o = AdvisoryOutcome.noText) :
    checkCompatibility o =
      { isCompatible := true,
        issues := ["Could not verify compatibility (AI Error)"],
        notes := [],
        estimatedWattage := 0,
        bottleneck := "Unknown",
        aiScore := 0 } := by
  rcases h with h | h <;> subst h <;> rfl

theorem claim3_advisory_fallback_witness :
    checkCompatibility AdvisoryOutcome.throws =
      { isCompatible := true,
        issues := ["Could not verify compatibility (AI Error)"],
        notes := [],
        estimatedWattage := 0,
        bottleneck := "Unknown",
        aiScore := 0 } :=
  claim3_advisory_fallback AdvisoryOutcome.throws (Or.inl rfl)

/-- C4 counterexample: in the interleaving where request A starts, a
newer request B starts, the response for B arrives, and then the stale
response for A arrives, the displayed result is the one for A — the
stale response overwrites the newer one, so the claimed staleness
protection does not hold on this code. -/
theorem claim4_counterexample :
    (runAnalysisEvents initialAnalysisState staleTrace).analysis
      = some resultA
    ∧ resultA ≠ resultB := by
  exact ⟨rfl, by decide⟩

/-- C4 amended: the source keeps no request tag, so a completing
response overwrites the displayed result unconditionally — the displayed
result after any event sequence is that of the most recently arrived
response (last-arrival-wins), which may belong to a superseded request;
with no completion the displayed result is unchanged. -/
theorem claim4_last_arrival_wins (s : AnalysisState)
    (evs : List AnalysisEv) :
    (∀ r, lastCompleted evs = some r →
      (runAnalysisEvents s evs).analysis = some r) ∧
    (lastCompleted evs = none →
      (runAnalysisEvents s evs).analysis = s.analysis) := by
  induction evs generalizing s with
  | nil =>
    exact ⟨fun r h => Option.noConfusion h, fun _ => rfl⟩
  | cons e rest ih =>
    constructor
    · intro r h
      cases hrest : lastCompleted rest with
      | some r0 =>
        have hr : r0 = r := by
          simp [lastCompleted, hrest] at h
          exact h
        exact hr ▸ (ih (stepAnalysis s e)).1 r0 hrest
      | none =>
        cases e with
        | start => simp [lastCompleted, hrest] at h
        | complete r1 =>
          have hr : r1 = r := by
            simp [lastCompleted, hrest] at h
            exact h
          have h2 := (ih (stepAnalysis s (AnalysisEv.complete r1))).2 hrest
          exact hr ▸ h2
    · intro h
      cases hrest : lastCompleted rest with
      | some r0 => simp [lastCompleted, hrest] at h
      | none =>
        cases e with
        | start => exact (ih (stepAnalysis s AnalysisEv.start)).2 hrest
        | complete r1 => simp [lastCompleted, hrest] at h

theorem claim4_last_arrival_wins_witness :
    (runAnalysisEvents initialAnalysisState
        [AnalysisEv.complete resultA]).analysis = some resultA :=
  (claim4_last_arrival_wins initialAnalysisState
    [AnalysisEv.complete resultA]).1 resultA rfl

/-- C6: the initial active category is the first element of the
canonical order; adding a non-last category advances the active category
to the next element of the order; adding the last category (case) leaves
the active category unchanged. -/
theorem claim6_auto_advance (s : UiState) (p : ComponentData) :
    initialActiveCategory = PartType.CPU ∧
    order.head? = some initialActiveCategory ∧
    (p.type = PartType.CASE →
      (handleAddPart s p).activeCategory = s.activeCategory) ∧
    (p.type ≠ PartType.CASE →
      (handleAddPart s p).activeCategory = specNextCategory p.type) := by
  refine ⟨rfl, rfl, ?_, ?_⟩
  · intro h
    show advanceAfterAdd s.activeCategory p.type = s.activeCategory
    rw [h]
    exact rfl
  · intro h
    show advanceAfterAdd s.activeCategory p.type = specNextCategory p.type
    cases hp : p.type
    case CASE => exact absurd hp h
    all_goals rfl

theorem claim6_auto_advance_witness :
    (handleAddPart { build := emptyBuild,
                     activeCategory := initialActiveCategory }
        sampleCPU).activeCategory = specNextCategory sampleCPU.type :=
  (claim6_auto_advance
    { build := emptyBuild, activeCategory := initialActiveCategory }
    sampleCPU).2.2.2 (by decide)

/-- C9 counterexample: on a throwing catalog provider, the fetch
operation resolves with the empty list, so `loadItems` stores no error —
the panel shows the empty-catalog state, not the claimed category-scoped
error state. -/
theorem claim9_counterexample :
    (loadItems { items := [], loading := false, error := none }
        PartType.CPU ProviderOutcome.throws).error = none ∧
    (loadItems { items := [], loading := false, error := none }
        PartType.CPU ProviderOutcome.throws).items = [] :=
  ⟨rfl, rfl⟩

/-- C9 amended: a provider failure is absorbed inside the fetch
operation, which always resolves (never rejects); consequently the error
branch of `loadItems` — the only place the category-scoped error state
with manual retry is set — is unreachable, the stored error is always
`none`, a throwing provider yields the empty item list, and the build
state is untouched by the whole fetch path. -/
theorem claim9_fetch_absorbs_failure (s : ListState) (b : BuildState)
    (category : PartType) (o : ProviderOutcome) :
    (∀ e, fetchComponentsE category o ≠ Except.error e) ∧
    (loadItems s category o).error = none ∧
    (o = ProviderOutcome.throws → (loadItems s category o).items = []) ∧
    (loadItemsApp (s, b) category o).2 = b := by
  refine ⟨fun e h => Except.noConfusion h, rfl, ?_, rfl⟩
  intro h
  subst h
  rfl

theorem claim9_fetch_absorbs_failure_witness :
    (loadItems { items := [sampleRAM], loading := true, error := some "x" }
        PartType.GPU ProviderOutcome.throws).items = [] :=
  (claim9_fetch_absorbs_failure
    { items := [sampleRAM], loading := true, error := some "x" }
    emptyBuild PartType.GPU ProviderOutcome.throws).2.2.1 rfl

/-- C2: the socket-match validation rules.  A candidate processor with
socket s against an installed motherboard with socket m, both non-empty
and different, yields exactly "Socket Mismatch: s vs m"; the symmetric
candidate-motherboard case yields "Socket Mismatch: m vs s" (operand
order reversed); equal sockets, or a missing (absent or empty — JS
falsy) socket specification on either side, yield no warning. -/
theorem claim2_socket_match (p : ComponentData) (b : BuildState) :
    (∀ mb s m, p.type = PartType.CPU →
      b PartType.MOTHERBOARD = some mb →
      p.specs "socket" = some s → mb.specs "socket" = some m →
      s ≠ "" → m ≠ "" → s ≠ m →
      getCompatibilityWarning b p
        = some ("Socket Mismatch: " ++ s ++ " vs " ++ m)) ∧
    (∀ c s m, p.type = PartType.MOTHERBOARD →
      b PartType.CPU = some c →
      p.specs "socket" = some m → c.specs "socket" = some s →
      s ≠ "" → m ≠ "" → s ≠ m →
      getCompatibilityWarning b p
        = some ("Socket Mismatch: " ++ m ++ " vs " ++ s)) ∧
    (∀ mb, p.type = PartType.CPU → b PartType.MOTHERBOARD = some mb →
      p.specs "socket" = mb.specs "socket" →
      getCompatibilityWarning b p = none) ∧
    (∀ c, p.type = PartType.MOTHERBOARD → b PartType.CPU = some c →
      p.specs "socket" = c.specs "socket" →
      getCompatibilityWarning b p = none) ∧
    ((p.specs "socket" = none ∨ p.specs "socket" = some "") →
      getCompatibilityWarning b p = none) ∧
    (∀ mb, p.type = PartType.CPU → b PartType.MOTHERBOARD = some mb →
      (mb.specs "socket" = none ∨ mb.specs "socket" = some "") →
      getCompatibilityWarning b p = none) ∧
    (∀ c, p.type = PartType.MOTHERBOARD → b PartType.CPU = some c →
      (c.specs "socket" = none ∨ c.specs "socket" = some "") →
      getCompatibilityWarning b p = none) := by
  refine ⟨?_, ?_, ?_, ?_, ?_, ?_, ?_⟩
  · intro mb s m hp hb hps hmb hs hm hsm
    simp [getCompatibilityWarning, hp, hb, hps, hmb, truthy, mismatchMsg,
      hs, hm]
    exact fun h => hsm h.symm
  · intro c s m hp hb hps hmb hs hm hsm
    simp [getCompatibilityWarning, hp, hb, hps, hmb, truthy, mismatchMsg,
      hs, hm]
    exact fun h => hsm h.symm
  · intro mb hp hb heq
    simp [getCompatibilityWarning, hp, hb, heq]
  · intro c hp hb heq
    simp [getCompatibilityWarning, hp, hb, heq]
  · intro hlacks
    have hc : truthy (p.specs "socket") = false := by
      rcases hlacks with h | h <;> simp [h, truthy]
    simp only [getCompatibilityWarning]
    split
    · cases hb2 : b PartType.MOTHERBOARD with
      | some mobo => simp [hc]
      | none => rfl
    · split
      · cases hb2 : b PartType.CPU with
        | some cpu => simp [hc]
        | none => rfl
      · rfl
  · intro mb hp hb hlacks
    rcases hlacks with h | h <;>
      simp [getCompatibilityWarning, hp, hb, h, truthy]
  · intro c hp hb hlacks
    rcases hlacks with h | h <;>
      simp [getCompatibilityWarning, hp, hb, h, truthy]

theorem claim2_socket_match_witness :
    getCompatibilityWarning buildWithMobo sampleCPU
      = some ("Socket Mismatch: " ++ "AM5" ++ " vs " ++ "LGA1700") :=
  (claim2_socket_match sampleCPU buildWithMobo).1 sampleMobo "AM5"
    "LGA1700" rfl rfl rfl rfl (by decide) (by decide) (by decide)

/-- Every warning the validator emits has the socket-mismatch shape. -/
theorem warningShape (b : BuildState) (p : ComponentData) (w : String)
    (h : getCompatibilityWarning b p = some w) :
    ∃ c m, w = "Socket Mismatch: " ++ c ++ " vs " ++ m := by
  unfold getCompatibilityWarning at h
  split at h
  · cases hb : b PartType.MOTHERBOARD with
    | some mobo =>
      rw [hb] at h
      simp only [] at h
      split at h
      · exact ⟨_, _, (Option.some.inj h).symm⟩
      · cases h
    | none => rw [hb] at h; cases h
  · split at h
    · cases hb : b PartType.CPU with
      | some cpu =>
        rw [hb] at h
        simp only [] at h
        split at h
        · exact ⟨_, _, (Option.some.inj h).symm⟩
        · cases h
      | none => rw [hb] at h; cases h
    · cases h

/-- C10 (implicit): the local validator produces at most one warning —
its warning list has length at most one for every candidate and build
state, and every emitted warning is an instance of the single
processor/motherboard socket rule message. -/
theorem claim10_single_warning (b : BuildState) (p : ComponentData) :
    (compatibilityWarnings b p).length ≤ 1 ∧
    (∀ w ∈ compatibilityWarnings b p,
      ∃ c m, w = "Socket Mismatch: " ++ c ++ " vs " ++ m) := by
  constructor
  · unfold compatibilityWarnings
    cases getCompatibilityWarning b p <;> simp
  · intro w hw
    unfold compatibilityWarnings at hw
    cases hgw : getCompatibilityWarning b p with
    | none => rw [hgw] at hw; cases hw
    | some w0 =>
      rw [hgw] at hw
      simp only [Option.toList_some, List.mem_singleton] at hw
      subst hw
      exact warningShape b p _ hgw

theorem claim10_single_warning_witness :
    (compatibilityWarnings buildWithMobo sampleCPU).length ≤ 1 ∧
    ∃ c m, "Socket Mismatch: AM5 vs LGA1700"
      = "Socket Mismatch: " ++ c ++ " vs " ++ m :=
  ⟨(claim10_single_warning buildWithMobo sampleCPU).1,
   (claim10_single_warning buildWithMobo sampleCPU).2
     "Socket Mismatch: AM5 vs LGA1700" (by decide)⟩

/-- Folding price accumulation equals the initial value plus the sum of
the mapped prices. -/
theorem foldl_add_price (l : List ComponentData) (a : Nat) :
    l.foldl (fun sum part => sum + part.price) a
      = a + (l.map (fun part => part.price)).sum := by
  induction l generalizing a with
  | nil => simp
  | cons p l ih => simp [ih, Nat.add_assoc]

/-- Summing the prices of the filled slots along a category list equals
summing the per-slot price contribution along the same list. -/
theorem sum_filterMap_price (b : BuildState) (l : List PartType) :
    ((l.filterMap b).map (fun part => part.price)).sum
      = (l.map (fun t => priceOf (b t))).sum := by
  induction l with
  | nil => rfl
  | cons t l ih => cases h : b t <;> simp [h, ih, priceOf]

/-- The number of slots kept by `filterMap` equals the count of filled
slots along the same category list. -/
theorem length_filterMap_eq_countP (b : BuildState) (l : List PartType) :
    (l.filterMap b).length = l.countP (fun t => (b t).isSome) := by
  induction l with
  | nil => rfl
  | cons t l ih => cases h : b t <;> simp [h, ih, List.countP_cons]

/-- C5: after every sequence of set/clear operations from the empty
build, `filledCount` equals the number of distinct occupied categories
and `totalPrice` equals the exact sum of the prices of the occupants
(`allParts` lists every category exactly once, so the count and the sum
range over distinct categories); the empty build has totals 0; and both
totals are functions of the final occupancy alone, so any two operation
sequences ending in the same final build state yield identical totals. -/
theorem claim5_derived_totals (ops : List BuildOp) :
    filledCount (applyOps emptyBuild ops)
      = specOccupiedCount (applyOps emptyBuild ops) ∧
    totalPrice (applyOps emptyBuild ops)
      = specTotalPrice (applyOps emptyBuild ops) ∧
    totalPrice emptyBuild = 0 ∧ filledCount emptyBuild = 0 ∧
    allParts.Nodup ∧ (∀ t : PartType, t ∈ allParts) ∧
    (∀ ops2 : List BuildOp,
      applyOps emptyBuild ops2 = applyOps emptyBuild ops →
      totalPrice (applyOps emptyBuild ops2)
          = totalPrice (applyOps emptyBuild ops) ∧
      filledCount (applyOps emptyBuild ops2)
          = filledCount (applyOps emptyBuild ops)) := by
  refine ⟨?_, ?_, rfl, rfl, by decide, ?_, ?_⟩
  · exact length_filterMap_eq_countP (applyOps emptyBuild ops) allParts
  · unfold totalPrice specTotalPrice activeParts
    rw [foldl_add_price, sum_filterMap_price]
    simp
  · intro t
    cases t <;> simp [allParts]
  · intro ops2 h
    rw [h]
    exact ⟨rfl, rfl⟩

theorem claim5_derived_totals_witness :
    totalPrice (applyOps emptyBuild [BuildOp.set sampleCPU])
      = specTotalPrice (applyOps emptyBuild [BuildOp.set sampleCPU]) ∧
    totalPrice (applyOps emptyBuild
        [BuildOp.set sampleCPU, BuildOp.clear PartType.RAM])
      = totalPrice (applyOps emptyBuild [BuildOp.set sampleCPU]) := by
  refine ⟨(claim5_derived_totals [BuildOp.set sampleCPU]).2.1, ?_⟩
  refine ((claim5_derived_totals [BuildOp.set sampleCPU]).2.2.2.2.2.2
    [BuildOp.set sampleCPU, BuildOp.clear PartType.RAM] ?_).1
  funext t
  cases t <;> rfl

/-- One mutation preserves the category-key invariant. -/
theorem wellKeyed_applyOp (b : BuildState) (op : BuildOp)
    (hb : WellKeyed b) : WellKeyed (applyOp b op) := by
  cases op with
  | set p =>
    intro t q h
    by_cases ht : t = p.type
    · have hpq : p = q := by simpa [applyOp, setSlot, ht] using h
      rw [← hpq]
      exact ht.symm
    · have hbt : b t = some q := by simpa [applyOp, setSlot, ht] using h
      exact hb t q hbt
  | clear t0 =>
    intro t q h
    by_cases ht : t = t0
    · simp [applyOp, clearSlot, ht] at h
    · have hbt : b t = some q := by simpa [applyOp, clearSlot, ht] using h
      exact hb t q hbt

/-- Every mutation sequence preserves the category-key invariant. -/
theorem wellKeyed_applyOps (ops : List BuildOp) :
    ∀ b, WellKeyed b → WellKeyed (applyOps b ops) := by
  induction ops with
  | nil => exact fun b hb => hb
  | cons op rest ih => exact fun b hb => ih _ (wellKeyed_applyOp b op hb)

/-- C8: every record returned by the catalog fetch has its category
force-normalized to the requested category, and every build state
reachable from the empty build by set/clear mutations satisfies the
category-key invariant: each stored record has its own category field
equal to the key it is stored under. -/
theorem claim8_category_key_invariant :
    (∀ (category : PartType) (o : ProviderOutcome)
        (record : ComponentData),
      record ∈ fetchComponents category o → record.type = category) ∧
    (∀ ops : List BuildOp, WellKeyed (applyOps emptyBuild ops)) := by
  constructor
  · intro category o record hrec
    cases o with
    | ok raw =>
      simp only [fetchComponents, List.mem_map] at hrec
      obtain ⟨item, _, rfl⟩ := hrec
      rfl
    | noText => cases hrec
    | throws => cases hrec
  · intro ops
    exact wellKeyed_applyOps ops emptyBuild
      (fun t p h => Option.noConfusion h)

theorem claim8_category_key_invariant_witness :
    sampleCPU.type = PartType.CPU ∧
    ({ sampleCPU with
        image := "https://picsum.photos/seed/" ++ sampleCPU.id ++ "/200/200",
        type := PartType.RAM } : ComponentData).type = PartType.RAM := by
  constructor
  · exact claim8_category_key_invariant.2 [BuildOp.set sampleCPU]
      PartType.CPU sampleCPU rfl
  · exact claim8_category_key_invariant.1 PartType.RAM
      (ProviderOutcome.ok [sampleCPU]) _ (List.mem_singleton.mpr rfl)

/-- C1: connection-edge derivation matches the five-rule table — for
every build state an edge of a given rule id is present exactly when
both endpoint slots of that rule are filled; an empty build yields no
edges; a build occupying exactly processor and memory yields exactly the
single cpu-ram edge, rendered with the data gradient; additionally
occupying only the power supply yields the same single edge (both power
rules need a motherboard or graphics card). -/
theorem claim1_edge_rule_table (b : BuildState) :
    ((∀ t, b t = none) → renderConnections b = []) ∧
    ((renderConnections b).any (fun e => e.id == "psu-mobo")
      = ((b PartType.PSU).isSome && (b PartType.MOTHERBOARD).isSome)) ∧
    ((renderConnections b).any (fun e => e.id == "psu-gpu")
      = ((b PartType.PSU).isSome && (b PartType.GPU).isSome)) ∧
    ((renderConnections b).any (fun e => e.id == "cpu-ram")
      = ((b PartType.CPU).isSome && (b PartType.RAM).isSome)) ∧
    ((renderConnections b).any (fun e => e.id == "cpu-gpu")
      = ((b PartType.CPU).isSome && (b PartType.GPU).isSome)) ∧
    ((renderConnections b).any (fun e => e.id == "mobo-sata")
      = ((b PartType.MOTHERBOARD).isSome && (b PartType.STORAGE).isSome)) ∧
    cpuRamEdge.color = "url(#grad-data)" ∧
    ((b PartType.CPU).isSome = true → (b PartType.RAM).isSome = true →
      b PartType.MOTHERBOARD = none → b PartType.GPU = none →
      b PartType.STORAGE = none → b PartType.PSU = none →
      renderConnections b = [cpuRamEdge]) ∧
    ((b PartType.CPU).isSome = true → (b PartType.RAM).isSome = true →
      (b PartType.PSU).isSome = true →
      b PartType.MOTHERBOARD = none → b PartType.GPU = none →
      b PartType.STORAGE = none →
      renderConnections b = [cpuRamEdge]) := by
  constructor
  · intro hall
    simp [renderConnections, hall PartType.PSU, hall PartType.MOTHERBOARD,
      hall PartType.CPU, hall PartType.RAM, hall PartType.GPU,
      hall PartType.STORAGE]
  · cases h1 : b PartType.PSU <;> cases h2 : b PartType.MOTHERBOARD <;>
      cases h3 : b PartType.CPU <;> cases h4 : b PartType.RAM <;>
      cases h5 : b PartType.GPU <;> cases h6 : b PartType.STORAGE <;>
      simp_all [renderConnections, psuMoboEdge, psuGpuEdge, cpuRamEdge,
        cpuGpuEdge, moboSataEdge]

theorem claim1_edge_rule_table_witness :
    renderConnections buildCpuRam = [cpuRamEdge] ∧
    renderConnections buildCpuRamPsu = [cpuRamEdge] ∧
    renderConnections emptyBuild = [] :=
  ⟨(claim1_edge_rule_table buildCpuRam).2.2.2.2.2.2.2.1
      rfl rfl rfl rfl rfl rfl,
   (claim1_edge_rule_table buildCpuRamPsu).2.2.2.2.2.2.2.2
      rfl rfl rfl rfl rfl rfl,
   (claim1_edge_rule_table emptyBuild).1 (fun _ => rfl)⟩

/-- Every edge produced by `renderConnections` is one of the five fixed
edge records. -/
theorem mem_renderConnections (b : BuildState) (e : Edge)
    (he : e ∈ renderConnections b) :
    e = psuMoboEdge ∨ e = psuGpuEdge ∨ e = cpuRamEdge ∨
    e = cpuGpuEdge ∨ e = moboSataEdge := by
  simp only [renderConnections, List.mem_append] at he
  rcases he with ((((he | he) | he) | he) | he) <;>
    (split at he <;> simp at he <;> subst he <;> tauto)

/-- C7 counterexample: in a build with motherboard and storage, the
single produced edge (mobo-sata) anchors its motherboard endpoint at the
motherboard center offset by (+60, +120), which is the point (270, 360);
the point at offset (+60, +120) from the motherboard top-left corner
would be (80, 140), a different point — refuting the claimed anchoring
rule at this concrete input. -/
theorem claim7_counterexample :
    (renderConnections buildMoboStorage).map (fun e => e.path.head?)
      = [some ((centers PartType.MOTHERBOARD).1 + 60,
               (centers PartType.MOTHERBOARD).2 + 120)] ∧
    ((centers PartType.MOTHERBOARD).1 + 60,
     (centers PartType.MOTHERBOARD).2 + 120)
      = (((270 : ℚ), (360 : ℚ)) : Pt) ∧
    ((COMPONENT_COORDS PartType.MOTHERBOARD).x + 60,
     (COMPONENT_COORDS PartType.MOTHERBOARD).y + 120)
      = (((80 : ℚ), (140 : ℚ)) : Pt) ∧
    (((270 : ℚ), (360 : ℚ)) : Pt) ≠ (((80 : ℚ), (140 : ℚ)) : Pt) := by
  refine ⟨rfl, ?_, ?_, ?_⟩
  · norm_num [centers, COMPONENT_COORDS]
  · norm_num [COMPONENT_COORDS]
  · norm_num [Prod.ext_iff]

/-- C7 amended: every fired rule anchors its edge at the geometric
centers of its two slots, except that the motherboard→storage edge anchors its
motherboard endpoint at offset (+60, +120) from the motherboard CENTER
(not from its top-left corner). -/
theorem claim7_anchor_points (b : BuildState) :
    ∀ e ∈ renderConnections b,
      (e.id = "psu-mobo" →
        e.path.head? = some (centers PartType.PSU) ∧
        e.path.getLast? = some (centers PartType.MOTHERBOARD)) ∧
      (e.id = "psu-gpu" →
        e.path.head? = some (centers PartType.PSU) ∧
        e.path.getLast? = some (centers PartType.GPU)) ∧
      (e.id = "cpu-ram" →
        e.path.head? = some (centers PartType.CPU) ∧
        e.path.getLast? = some (centers PartType.RAM)) ∧
      (e.id = "cpu-gpu" →
        e.path.head? = some (centers PartType.CPU) ∧
        e.path.getLast? = some (centers PartType.GPU)) ∧
      (e.id = "mobo-sata" →
        e.path.head? = some ((centers PartType.MOTHERBOARD).1 + 60,
                             (centers PartType.MOTHERBOARD).2 + 120) ∧
        e.path.getLast? = some (centers PartType.STORAGE)) := by
  intro e he
  rcases mem_renderConnections b e he with h | h | h | h | h <;> subst h <;>
    refine ⟨?_, ?_, ?_, ?_, ?_⟩ <;> intro hid <;>
    first
      | exact ⟨rfl, rfl⟩
      | exact absurd hid (by decide)

theorem claim7_anchor_points_witness :
    moboSataEdge.path.head?
      = some ((centers PartType.MOTHERBOARD).1 + 60,
              (centers PartType.MOTHERBOARD).2 + 120) ∧
    moboSataEdge.path.getLast? = some (centers PartType.STORAGE) :=
  (claim7_anchor_points buildMoboStorage moboSataEdge
    (List.mem_singleton.mpr rfl)).2.2.2.2 rfl
